import Mathlib

/-!
Verification development for the verifi-app off-chain AI agent
(`src/ai-agent`).  Each Python module is shallowly embedded as pure Lean
definitions: environment interactions (HTTP responses, subprocess results,
chain reads) become explicit environment records, Python exceptions become
an explicit outcome type caught by the handlers the source installs, and
module-level mutable globals become an explicit state record threaded
through the listener step function.
-/

namespace VerifiApp

/-- Outcome of a Python expression: a value, or a raised exception carrying
the exception class name.  Handlers in the embedded code match on it the
way the `except` clauses of the source do. -/
inductive PyOutcome (α : Type) where
  | ok (val : α)
  | exc (name : String)
deriving Repr, DecidableEq

/- ================================================================
   config.py
   ================================================================ -/

/-- The process environment as `os.getenv` sees it: `none` means the
variable is absent, `some s` its raw string value. -/
structure PyEnv where
  fuji_rpc_url : Option String
  contract_address : Option String
  ai_agent_private_key : Option String
  ipfs_api_url : Option String
  contract_abi_path : Option String
  minimum_coverage_percentage : Option String
  google_api_key : Option String
deriving Repr, DecidableEq

/-- Python truthiness test `not x` for an `os.getenv` result: `None` and
the empty string are falsy. -/
def pyFalsy : Option String → Bool
  | none => true
  | some s => s.isEmpty

/-- Numeric value of a decimal digit character, `none` otherwise. -/
def digitVal (c : Char) : Option Nat :=
  if 48 ≤ c.toNat ∧ c.toNat ≤ 57 then some (c.toNat - 48) else none

/-- Accumulate decimal digits left to right; `none` on the first
non-digit. -/
def parseNatAux : List Char → Nat → Option Nat
  | [], acc => some acc
  | c :: cs, acc =>
    match digitVal c with
    | none => none
    | some d => parseNatAux cs (acc * 10 + d)

/-- Behavior of the Python builtin `int(s)` on a decimal string: an optional leading sign
followed by digits; anything else (including the empty string) raises
`ValueError`, modelled as `none`. -/
def pyParseInt (s : String) : Option Int :=
  match s.data with
  | [] => none
  | '-' :: cs =>
    match cs with
    | [] => none
    | _ => (parseNatAux cs 0).map (fun n => -(n : Int))
  | '+' :: cs =>
    match cs with
    | [] => none
    | _ => (parseNatAux cs 0).map (fun n => (n : Int))
  | cs => (parseNatAux cs 0).map (fun n => (n : Int))

/-- The validated configuration exported by `config.py` on a successful
import. -/
structure Config where
  fuji_rpc_url : String
  contract_address : String
  ai_agent_private_key : String
  ipfs_api_url : String
  contract_abi_path : String
  minimum_coverage_percentage : Int
  google_api_key : String
deriving Repr, DecidableEq

/-- `config.py` at module import: line 11 evaluates
`int(os.getenv("MINIMUM_COVERAGE_PERCENTAGE", "90"))` before the
validation block of lines 15-26, which raises `ValueError` for the first
required setting whose value is falsy.  The result is the exported module
state or the exception that aborts the process at startup. -/
def loadConfig (env : PyEnv) : PyOutcome Config :=
  match pyParseInt (env.minimum_coverage_percentage.getD "90") with
  | none => .exc "ValueError"
  | some mcp =>
    if pyFalsy env.fuji_rpc_url then .exc "ValueError: FUJI_RPC_URL not set in .env"
    else if pyFalsy env.contract_address then .exc "ValueError: CONTRACT_ADDRESS not set in .env"
    else if pyFalsy env.ai_agent_private_key then .exc "ValueError: AI_AGENT_PRIVATE_KEY not set in .env"
    else if pyFalsy env.ipfs_api_url then .exc "ValueError: IPFS_API_URL not set in .env"
    else if pyFalsy env.contract_abi_path then .exc "ValueError: CONTRACT_ABI_PATH not set in .env"
    else if pyFalsy env.google_api_key then .exc "ValueError: GOOGLE_API_KEY not set in .env"
    else .ok
      { fuji_rpc_url := env.fuji_rpc_url.getD ""
        contract_address := env.contract_address.getD ""
        ai_agent_private_key := env.ai_agent_private_key.getD ""
        ipfs_api_url := env.ipfs_api_url.getD ""
        contract_abi_path := env.contract_abi_path.getD ""
        minimum_coverage_percentage := mcp
        google_api_key := env.google_api_key.getD "" }

/-- Whether importing `config.py` raised (the process fails fast and does
not start). -/
def configImportRaises (env : PyEnv) : Bool :=
  match loadConfig env with
  | .ok _ => false
  | .exc _ => true

/- ================================================================
   verification_service.py
   ================================================================ -/

/-- Result of the `subprocess.run(["pytest", ...], check=True)` call:
the tool binary is missing (`FileNotFoundError`), the process exited
non-zero (`CalledProcessError`, because of `check=True`), or it ran to a
zero exit status. -/
inductive PytestRun where
  | toolMissing
  | calledProcessError
  | completed
deriving Repr, DecidableEq

/-- The parsed `"totals"` object of a coverage report; `percent_covered`
is `none` when the key is absent. -/
structure Totals where
  percent_covered : Option Rat
deriving Repr, DecidableEq

/-- A coverage report that parsed as JSON; `totals` is `none` when the
`"totals"` key is absent. -/
structure CoverageReport where
  totals : Option Totals
deriving Repr, DecidableEq

/-- Environment of one `verify_code_coverage` call: how the pytest
subprocess behaved, whether `coverage.json` exists on disk, and — when it
exists — its parse (`none` models a body `json.load` rejects with
`JSONDecodeError`). -/
structure CoverageEnv where
  run : PytestRun
  reportExists : Bool
  report : Option CoverageReport
deriving Repr, DecidableEq

/-- `coverage_data.get("totals", {}).get("percent_covered", 0)`: a missing
`"totals"` object or a missing `"percent_covered"` key each default
to `0`. -/
def extractPercent (data : CoverageReport) : Rat :=
  match data.totals with
  | none => 0
  | some t => t.percent_covered.getD 0

/-- The `try` body of `verify_code_coverage` (lines 15-45): run pytest
with coverage, return `False` if `coverage.json` is absent, parse it, and
compare the extracted percentage against the configured minimum. -/
def verifyCoverageBody (threshold : Int) (env : CoverageEnv) : PyOutcome Bool :=
  match env.run with
  | .toolMissing => .exc "FileNotFoundError"
  | .calledProcessError => .exc "CalledProcessError"
  | .completed =>
    if env.reportExists = false then .ok false
    else
      match env.report with
      | none => .exc "JSONDecodeError"
      | some data => .ok (decide ((threshold : Rat) ≤ extractPercent data))

/-- `verify_code_coverage`: the body wrapped in the `except`
clauses of the source — `CalledProcessError`, `FileNotFoundError`, `JSONDecodeError`
and the final catch-all `except Exception` all return `False`, so no
exception escapes to the caller. -/
def verify_code_coverage (threshold : Int) (env : CoverageEnv) : Bool :=
  match verifyCoverageBody threshold env with
  | .ok b => b
  | .exc _ => false

/-- A coverage environment whose report parsed and carries
`totals.percent_covered = p`. -/
def fullReportEnv (p : Rat) : CoverageEnv :=
  { run := .completed, reportExists := true, report := some ⟨some ⟨some p⟩⟩ }

/-- A coverage environment whose report parsed but has no `"totals"`
object. -/
def totalsMissingEnv : CoverageEnv :=
  { run := .completed, reportExists := true, report := some ⟨none⟩ }

/- ================================================================
   ipfs_service.py
   ================================================================ -/

/-- Result of a `requests.post` call, covering the transport failures the
`except` clauses of the source enumerate: HTTP error status (raised by
`raise_for_status`), connection error, timeout, and any other
`RequestException`. -/
inductive HttpResult where
  | ok (body : String)
  | httpError (code : Nat)
  | connectionError
  | timeoutError
  | requestError
deriving Repr, DecidableEq

/-- The request as issued: URL, the `arg` query parameter, and the
`timeout=` keyword argument. -/
structure HttpRequest where
  url : String
  arg : String
  timeout : Nat
deriving Repr, DecidableEq

/-- The `/api/v0/cat` request both fetch functions build:
`requests.post(f"{config.IPFS_API_URL}/api/v0/cat", params={"arg": ipfs_hash}, timeout=30)`. -/
def catRequest (apiUrl ipfs_hash : String) : HttpRequest :=
  { url := apiUrl ++ "/api/v0/cat", arg := ipfs_hash, timeout := 30 }

/-- Environment of one `download_work_from_ipfs` call: the response of the transport and the fresh directory name `tempfile.mkdtemp` would mint. -/
structure IpfsFetchEnv where
  response : HttpResult
  freshDir : String
deriving Repr, DecidableEq

/-- `download_work_from_ipfs`: issues the cat request; on success creates
a fresh scratch directory, writes the content there and returns the
directory path; on any transport failure the matching `except` clause
logs and the function returns `""`.  The local disk is modelled as the
list of existing scratch directories; the issued request is returned so
its parameters can be inspected. -/
def download_work_from_ipfs (apiUrl ipfs_hash : String) (env : IpfsFetchEnv)
    (disk : List String) : String × List String × HttpRequest :=
  let req := catRequest apiUrl ipfs_hash
  match env.response with
  | .ok _ => (env.freshDir, env.freshDir :: disk, req)
  | _ => ("", disk, req)

/-- `get_file_content_from_ipfs`: issues the same cat request and returns
`response.text` on success; every transport failure is caught and the
function returns `""`. -/
def get_file_content_from_ipfs (apiUrl ipfs_hash : String)
    (response : HttpResult) : String × HttpRequest :=
  let req := catRequest apiUrl ipfs_hash
  match response with
  | .ok body => (body, req)
  | _ => ("", req)

/- ================================================================
   JobPipeline (per-event callback)
   ================================================================ -/

/-- Behavior of the acceptance checker on one artifact: a returned
verdict, or a crash (any exception raised by the checker). -/
inductive CheckerOutcome where
  | verdict (passed : Bool)
  | crash
deriving Repr, DecidableEq

/-- Environment of one pipeline invocation: the artifact fetch and the
checker behavior. -/
structure PipelineEnv where
  fetch : IpfsFetchEnv
  checker : CheckerOutcome
deriving Repr, DecidableEq

/-- Modelled from the spec: the JobPipeline — the per-event
download → verify → decide → submit → cleanup state machine of spec
§4.4 — is not among the files under `src/` (only its leaf services
`ipfs_service` and `verification_service` are).  Faithful to the transitions the spec gives: a failed download immediately submits `approved = false`
without creating a scratch artifact; any checker exception is absorbed
as `approved = false`; the scratch artifact, when created, is removed on
every path out of `Downloaded`/`Verifying`; exactly one verdict is
produced per invocation.  The download itself is the source-embedded
`download_work_from_ipfs`.  Returns the submitted verdict and the final
disk state. -/
def jobPipeline (apiUrl ipfs_hash : String) (env : PipelineEnv)
    (disk : List String) : Bool × List String :=
  let fetched := download_work_from_ipfs apiUrl ipfs_hash env.fetch disk
  let workDir := fetched.1
  let disk1 := fetched.2.1
  if workDir = "" then
    (false, disk1)
  else
    let approved :=
      match env.checker with
      | .verdict b => b
      | .crash => false
    (approved, disk1.erase workDir)

/- ================================================================
   blockchain_service.py — listener
   ================================================================ -/

/-- A decoded event as yielded by `event_filter.get_new_entries()`. -/
structure ChainEvent where
  jobId : Nat
  blockNumber : Nat
deriving Repr, DecidableEq

/-- The module-level mutable globals of `blockchain_service.py` together
with the loop variable of the listener: `w3`, `contract` and
`ai_agent_account` are modelled by whether they are non-`None`, and
`last_block_number` is the watermark. -/
structure ListenerState where
  w3 : Bool
  contract : Bool
  ai_agent_account : Bool
  last_block_number : Nat
deriving Repr, DecidableEq

/-- Environment of one iteration of the `while True` body of
`listen_for_event`: whether `init_contract()` would succeed, whether
`create_filter` succeeds, the batch `get_new_entries()` returns, whether
each awaited callback completes without raising, and the chain height
`w3.eth.block_number` reads after the batch. -/
structure PollEnv where
  initOk : Bool
  filterOk : Bool
  events : List ChainEvent
  cbOk : ChainEvent → Bool
  blockNumber : Nat

/-- Observable result of one loop iteration. -/
structure StepResult where
  state : ListenerState
  /-- Events on which the callback was invoked, in invocation order. -/
  invoked : List ChainEvent
  /-- `fromBlock` passed to `create_filter`, `none` if the iteration
  raised before reaching the filter call. -/
  fromBlock : Option Nat
  /-- Argument of the `asyncio.sleep` ending the iteration. -/
  sleep : Nat
  /-- Whether `init_contract()` was called this iteration. -/
  initAttempted : Bool
  /-- `true` when the whole `try` body completed without an exception. -/
  ok : Bool

/-- Steady-state poll interval: `await asyncio.sleep(5)`. -/
def POLL_INTERVAL : Nat := 5

/-- Cooldown after an exception: `await asyncio.sleep(10)`. -/
def COOLDOWN : Nat := 10

/-- The `for event in event_filter.get_new_entries(): await
callback_function(event)` loop: each callback is awaited to completion
before the next event is considered; if one raises, the iteration stops
there.  Returns the invocation trace and whether the loop completed. -/
def runCallbacks (cb : ChainEvent → Bool) : List ChainEvent → List ChainEvent × Bool
  | [] => ([], true)
  | e :: rest =>
    if cb e then
      let r := runCallbacks cb rest
      (e :: r.1, r.2)
    else ([e], false)

/-- One iteration of the `while True` loop of `listen_for_event`
(lines 57-79).  `listen_for_event` declares `global w3, contract` but not
`ai_agent_account`, so the `w3 = contract = ai_agent_account = None` in
its `except` clause resets the `w3` and `contract` globals while binding
`ai_agent_account` as a function-local name, leaving the module-level
`ai_agent_account` untouched; when the exception comes out of
`init_contract()`, the `except` clause of that function (which does
declare all three globals) has already reset all three before
re-raising. -/
def listenStep (s : ListenerState) (env : PollEnv) : StepResult :=
  let needInit := !s.w3 || !s.contract
  if needInit && !env.initOk then
    { state := { s with w3 := false, contract := false, ai_agent_account := false }
      invoked := []
      fromBlock := none
      sleep := COOLDOWN
      initAttempted := true
      ok := false }
  else
    let s1 :=
      if needInit then { s with w3 := true, contract := true, ai_agent_account := true }
      else s
    if !env.filterOk then
      { state := { s1 with w3 := false, contract := false }
        invoked := []
        fromBlock := some (s.last_block_number + 1)
        sleep := COOLDOWN
        initAttempted := needInit
        ok := false }
    else
      let r := runCallbacks env.cbOk env.events
      if r.2 then
        { state := { s1 with last_block_number := env.blockNumber }
          invoked := r.1
          fromBlock := some (s.last_block_number + 1)
          sleep := POLL_INTERVAL
          initAttempted := needInit
          ok := true }
      else
        { state := { s1 with w3 := false, contract := false }
          invoked := r.1
          fromBlock := some (s.last_block_number + 1)
          sleep := COOLDOWN
          initAttempted := needInit
          ok := false }

/- ================================================================
   blockchain_service.py — transaction submission
   ================================================================ -/

/-- A contract function call object (`contract.functions.<f>(...)`). -/
inductive ContractCall where
  | verifyWork (jobId : Nat) (isApproved : Bool)
  | resolveDispute (jobId : Nat) (releaseToFreelancer : Bool)
deriving Repr, DecidableEq

/-- A mined transaction receipt; `status = 1` means logical success. -/
structure TxReceipt where
  status : Nat
deriving Repr, DecidableEq

/-- Chain-side readings consumed by `_send_transaction`: the transaction count of the account, the current gas price, and the receipt
`wait_for_transaction_receipt` eventually returns. -/
structure ChainEnv where
  txCount : Nat
  gasPrice : Nat
  receipt : TxReceipt
deriving Repr, DecidableEq

/-- The transaction dictionary `function_call.build_transaction(...)`
produces. -/
structure BuiltTx where
  sender : String
  nonce : Nat
  gas : Nat
  gasPrice : Nat
  call : ContractCall
deriving Repr, DecidableEq

/-- Trace of one `_send_transaction` call: how many times the signed
transaction was broadcast and whether confirmation was awaited. -/
structure TxTrace where
  broadcasts : Nat
  waited : Bool
deriving Repr, DecidableEq

/-- `_send_transaction` (lines 81-102): build with the nonce of the account, a
fixed gas of 2000000 and the current gas price; sign; broadcast once;
block on `wait_for_transaction_receipt`; log the status of the receipt and
return the receipt unconditionally — a status of 0 is returned like any
other, never raised and never retried. -/
def send_transaction (sender : String) (env : ChainEnv)
    (call : ContractCall) : TxReceipt × BuiltTx × TxTrace :=
  let tx : BuiltTx :=
    { sender := sender, nonce := env.txCount, gas := 2000000
      gasPrice := env.gasPrice, call := call }
  (env.receipt, tx, { broadcasts := 1, waited := true })

/-- `send_verification_result`: submits `verifyWork(job_id, is_approved)`
through `_send_transaction` and returns its receipt. -/
def send_verification_result (sender : String) (env : ChainEnv)
    (job_id : Nat) (is_approved : Bool) : TxReceipt × BuiltTx × TxTrace :=
  send_transaction sender env (.verifyWork job_id is_approved)

/- ================================================================
   Helper lemmas
   ================================================================ -/

/-- When every callback completes, the event loop invokes all events in
order and reports completion. -/
theorem runCallbacks_all_true (cb : ChainEvent → Bool) (l : List ChainEvent)
    (h : ∀ e ∈ l, cb e = true) : runCallbacks cb l = (l, true) := by
  induction l with
  | nil => rfl
  | cons e rest ih =>
    have he : cb e = true := h e (List.mem_cons_self e rest)
    have hrest : ∀ x ∈ rest, cb x = true := fun x hx => h x (List.mem_cons_of_mem e hx)
    simp [runCallbacks, he, ih hrest]

/-- If the event loop reports completion, every event was invoked in
order and every callback succeeded. -/
theorem runCallbacks_complete (cb : ChainEvent → Bool) (l : List ChainEvent)
    (h : (runCallbacks cb l).2 = true) :
    (runCallbacks cb l).1 = l ∧ ∀ e ∈ l, cb e = true := by
  induction l with
  | nil => exact ⟨rfl, by intro e he; cases he⟩
  | cons e rest ih =>
    by_cases hcb : cb e = true
    · have hr : (runCallbacks cb (e :: rest)).1 = e :: (runCallbacks cb rest).1 := by
        simp [runCallbacks, hcb]
      have hr2 : (runCallbacks cb (e :: rest)).2 = (runCallbacks cb rest).2 := by
        simp [runCallbacks, hcb]
      rw [hr2] at h
      obtain ⟨h1, h2⟩ := ih h
      refine ⟨by rw [hr, h1], ?_⟩
      intro x hx
      rcases List.mem_cons.mp hx with hx | hx
      · exact hx ▸ hcb
      · exact h2 x hx
    · exfalso
      have : (runCallbacks cb (e :: rest)).2 = false := by
        simp [runCallbacks, hcb]
      rw [this] at h
      cases h

/-- Whenever an iteration reaches the filter-creation call (no
initialization failure), the filter is created from the current watermark
plus one. -/
theorem listenStep_fromBlock (s : ListenerState) (env : PollEnv)
    (h : ((!s.w3 || !s.contract) && !env.initOk) = false) :
    (listenStep s env).fromBlock = some (s.last_block_number + 1) := by
  by_cases hf : env.filterOk = true
  · rcases hok : (runCallbacks env.cbOk env.events).2 with _ | _ <;>
      simp [listenStep, h, hf, hok]
  · have hf' : env.filterOk = false := by
      cases hval : env.filterOk
      · rfl
      · exact absurd hval hf
    simp [listenStep, h, hf']

/- ================================================================
   Claim theorems
   ================================================================ -/

/-- C3: for every coverage report whose `totals.percent_covered` field
parses to a number `p`, `verify_code_coverage` returns `true` exactly
when `p` is at least the configured minimum; in particular, with the
default threshold 90, `p = 90.0` yields `true` and `p = 89.99` yields
`false`. -/
theorem coverage_threshold_boundary :
    (∀ (t : Int) (p : Rat),
      verify_code_coverage t (fullReportEnv p) = decide ((t : Rat) ≤ p))
    ∧ verify_code_coverage 90 (fullReportEnv 90) = true
    ∧ verify_code_coverage 90 (fullReportEnv (8999 / 100)) = false := by
  refine ⟨fun t p => ?_,
    by norm_num [verify_code_coverage, verifyCoverageBody, fullReportEnv, extractPercent],
    by norm_num [verify_code_coverage, verifyCoverageBody, fullReportEnv, extractPercent]⟩
  simp [verify_code_coverage, verifyCoverageBody, fullReportEnv, extractPercent]

/-- C10: when the report parses as JSON but lacks the `totals` object or
its `percent_covered` field, `verify_code_coverage` substitutes 0 and
returns the comparison `0 >= MINIMUM_COVERAGE_PERCENTAGE`: with a
threshold of 0 such a report is approved, with the default 90 it is
rejected. -/
theorem missing_totals_defaults_to_zero :
    (∀ t : Int, verify_code_coverage t totalsMissingEnv = decide ((t : Rat) ≤ 0))
    ∧ (∀ t : Int, verify_code_coverage t
        ⟨.completed, true, some ⟨some ⟨none⟩⟩⟩ = decide ((t : Rat) ≤ 0))
    ∧ verify_code_coverage 0 totalsMissingEnv = true
    ∧ verify_code_coverage 90 totalsMissingEnv = false := by
  refine ⟨fun t => ?_, fun t => ?_,
    by norm_num [verify_code_coverage, verifyCoverageBody, totalsMissingEnv, extractPercent],
    by norm_num [verify_code_coverage, verifyCoverageBody, totalsMissingEnv, extractPercent]⟩
  · simp [verify_code_coverage, verifyCoverageBody, totalsMissingEnv, extractPercent]
  · simp [verify_code_coverage, verifyCoverageBody, extractPercent]

/-- C8: `send_verification_result` (via `_send_transaction`) builds,
signs, broadcasts and waits for confirmation as one blocking unit and
returns the mined receipt unchanged — so a receipt whose status is not 1
comes back as an ordinary result, is broadcast exactly once (never
retried), and the built transaction carries the account nonce, a fixed
gas of 2000000, the current gas price and the `verifyWork` call. -/
theorem send_verification_returns_receipt (sender : String) (env : ChainEnv)
    (job_id : Nat) (is_approved : Bool) :
    (send_verification_result sender env job_id is_approved).1 = env.receipt
    ∧ (send_verification_result sender env job_id is_approved).2.2.broadcasts = 1
    ∧ (send_verification_result sender env job_id is_approved).2.2.waited = true
    ∧ (send_verification_result sender env job_id is_approved).2.1 =
        { sender := sender, nonce := env.txCount, gas := 2000000
          gasPrice := env.gasPrice, call := .verifyWork job_id is_approved } :=
  ⟨rfl, rfl, rfl, rfl⟩

/-- C6: both object-store fetches issue their request with a fixed
timeout of 30, and on any transport failure (HTTP error status,
connection error, timeout, other request error) they return the empty
string instead of letting the exception escape. -/
theorem ipfs_fetch_timeout_and_empty_on_failure (apiUrl ipfs_hash : String)
    (env : IpfsFetchEnv) (resp : HttpResult) (disk : List String) :
    (download_work_from_ipfs apiUrl ipfs_hash env disk).2.2.timeout = 30
    ∧ (get_file_content_from_ipfs apiUrl ipfs_hash resp).2.timeout = 30
    ∧ ((∀ b, env.response ≠ .ok b) →
        (download_work_from_ipfs apiUrl ipfs_hash env disk).1 = "")
    ∧ ((∀ b, resp ≠ .ok b) →
        (get_file_content_from_ipfs apiUrl ipfs_hash resp).1 = "") := by
  refine ⟨?_, ?_, ?_, ?_⟩
  · cases hr : env.response <;> simp [download_work_from_ipfs, catRequest, hr]
  · cases resp <;> rfl
  · intro hfail
    cases hr : env.response with
    | ok b => exact absurd hr (hfail b)
    | httpError c => simp [download_work_from_ipfs, hr]
    | connectionError => simp [download_work_from_ipfs, hr]
    | timeoutError => simp [download_work_from_ipfs, hr]
    | requestError => simp [download_work_from_ipfs, hr]
  · intro hfail
    cases hr : resp with
    | ok b => exact absurd hr (hfail b)
    | httpError c => simp [get_file_content_from_ipfs]
    | connectionError => simp [get_file_content_from_ipfs]
    | timeoutError => simp [get_file_content_from_ipfs]
    | requestError => simp [get_file_content_from_ipfs]

/-- C6 witness: a timed-out download and a connection-refused content
fetch both yield the empty string, and both requests carry timeout 30. -/
theorem ipfs_fetch_timeout_witness :
    (download_work_from_ipfs "http://localhost:5001" "Qm999"
      ⟨.timeoutError, "/tmp/ipfs_work_a"⟩ []).1 = ""
    ∧ (get_file_content_from_ipfs "http://localhost:5001" "Qm999"
        .connectionError).1 = ""
    ∧ (download_work_from_ipfs "http://localhost:5001" "Qm999"
        ⟨.timeoutError, "/tmp/ipfs_work_a"⟩ []).2.2.timeout = 30 := by
  have h := ipfs_fetch_timeout_and_empty_on_failure "http://localhost:5001" "Qm999"
    ⟨.timeoutError, "/tmp/ipfs_work_a"⟩ .connectionError []
  exact ⟨h.2.2.1 (fun b hb => HttpResult.noConfusion hb),
    h.2.2.2 (fun b hb => HttpResult.noConfusion hb), h.1⟩

/-- C5: every pipeline invocation leaves the disk as it found it — in
particular the fresh scratch directory minted by
`download_work_from_ipfs` no longer exists after the invocation returns,
on every exit path (download failure, checker crash, checker verdict). -/
theorem scratch_removed_on_all_paths (apiUrl ipfs_hash : String)
    (env : PipelineEnv) (disk : List String)
    (hne : env.fetch.freshDir ≠ "") (hfresh : env.fetch.freshDir ∉ disk) :
    (jobPipeline apiUrl ipfs_hash env disk).2 = disk
    ∧ env.fetch.freshDir ∉ (jobPipeline apiUrl ipfs_hash env disk).2 := by
  have hmain : (jobPipeline apiUrl ipfs_hash env disk).2 = disk := by
    cases hr : env.fetch.response with
    | ok b => simp [jobPipeline, download_work_from_ipfs, hr, hne]
    | httpError c => simp [jobPipeline, download_work_from_ipfs, hr]
    | connectionError => simp [jobPipeline, download_work_from_ipfs, hr]
    | timeoutError => simp [jobPipeline, download_work_from_ipfs, hr]
    | requestError => simp [jobPipeline, download_work_from_ipfs, hr]
  exact ⟨hmain, by rw [hmain]; exact hfresh⟩

/-- C4: with a strictly positive configured threshold, every failure
mode of the acceptance check — pytest missing, pytest exiting with an
error status, `coverage.json` absent, the report body not parsing as
JSON, the parsed report lacking the `totals` object or its
`percent_covered` field — makes `verify_code_coverage` return `false`,
and every exception the body raises is absorbed by a handler, never
propagated to the caller. -/
theorem coverage_failure_modes_reject (t : Int) (env : CoverageEnv) (ht : 0 < t) :
    (env.run = .toolMissing → verify_code_coverage t env = false)
    ∧ (env.run = .calledProcessError → verify_code_coverage t env = false)
    ∧ (env.reportExists = false → verify_code_coverage t env = false)
    ∧ (env.report = none → verify_code_coverage t env = false)
    ∧ (∀ r, env.report = some r → r.totals = none → verify_code_coverage t env = false)
    ∧ (∀ r tt, env.report = some r → r.totals = some tt → tt.percent_covered = none →
        verify_code_coverage t env = false)
    ∧ (∀ e, verifyCoverageBody t env = .exc e → verify_code_coverage t env = false) := by
  have hle : ¬((t : Rat) ≤ 0) := not_le.mpr (by exact_mod_cast ht)
  obtain ⟨run, rex, rep⟩ := env
  refine ⟨?_, ?_, ?_, ?_, ?_, ?_, ?_⟩
  · intro hr
    subst hr
    rfl
  · intro hr
    subst hr
    rfl
  · intro hr
    subst hr
    cases run <;> rcases rep with _ | r <;>
      simp [verify_code_coverage, verifyCoverageBody]
  · intro hr
    subst hr
    cases run <;> cases rex <;> simp [verify_code_coverage, verifyCoverageBody]
  · intro r hr htot
    subst hr
    cases run <;> cases rex <;>
      simp [verify_code_coverage, verifyCoverageBody, extractPercent, htot, hle]
  · intro r tt hr htot hpc
    subst hr
    cases run <;> cases rex <;>
      simp [verify_code_coverage, verifyCoverageBody, extractPercent, htot, hpc, hle]
  · intro e he
    simp [verify_code_coverage, he]

/-- C4 witness: with the default threshold 90, a parsed report lacking
the `totals` object is rejected, and a missing pytest binary is
rejected. -/
theorem coverage_failure_modes_reject_witness :
    (0 : Int) < 90
    ∧ verify_code_coverage 90 ⟨.completed, true, some ⟨none⟩⟩ = false
    ∧ verify_code_coverage 90 ⟨.toolMissing, true, some ⟨none⟩⟩ = false := by
  have h1 := coverage_failure_modes_reject 90 ⟨.completed, true, some ⟨none⟩⟩ (by decide)
  have h2 := coverage_failure_modes_reject 90 ⟨.toolMissing, true, some ⟨none⟩⟩ (by decide)
  exact ⟨by decide, h1.2.2.2.2.1 ⟨none⟩ rfl rfl, h2.1 rfl⟩

/-- C9: at import of `config.py`, if any required setting — FUJI_RPC_URL,
CONTRACT_ADDRESS, AI_AGENT_PRIVATE_KEY, IPFS_API_URL, CONTRACT_ABI_PATH
or GOOGLE_API_KEY — is absent from the environment, the module raises so
the process fails fast and does not start; MINIMUM_COVERAGE_PERCENTAGE
is not required and defaults to 90 when absent. -/
theorem config_required_fail_fast (env : PyEnv) :
    ((env.fuji_rpc_url = none ∨ env.contract_address = none
      ∨ env.ai_agent_private_key = none ∨ env.ipfs_api_url = none
      ∨ env.contract_abi_path = none ∨ env.google_api_key = none) →
      configImportRaises env = true)
    ∧ (env.minimum_coverage_percentage = none →
      pyFalsy env.fuji_rpc_url = false → pyFalsy env.contract_address = false →
      pyFalsy env.ai_agent_private_key = false → pyFalsy env.ipfs_api_url = false →
      pyFalsy env.contract_abi_path = false → pyFalsy env.google_api_key = false →
      ∃ cfg, loadConfig env = .ok cfg ∧ cfg.minimum_coverage_percentage = 90) := by
  constructor
  · intro hmiss
    cases hm : pyParseInt (env.minimum_coverage_percentage.getD "90") with
    | none => simp [configImportRaises, loadConfig, hm]
    | some mcp =>
      rcases hmiss with h | h | h | h | h | h <;>
        simp only [configImportRaises, loadConfig, hm] <;>
        split_ifs <;> simp_all [pyFalsy]
  · intro hmcp h1 h2 h3 h4 h5 h6
    have hm : pyParseInt (env.minimum_coverage_percentage.getD "90") = some 90 := by
      rw [hmcp]
      decide
    refine ⟨{ fuji_rpc_url := env.fuji_rpc_url.getD ""
              contract_address := env.contract_address.getD ""
              ai_agent_private_key := env.ai_agent_private_key.getD ""
              ipfs_api_url := env.ipfs_api_url.getD ""
              contract_abi_path := env.contract_abi_path.getD ""
              minimum_coverage_percentage := 90
              google_api_key := env.google_api_key.getD "" }, ?_, rfl⟩
    simp [loadConfig, hm, h1, h2, h3, h4, h5, h6]

/-- C9 witness: a full environment without MINIMUM_COVERAGE_PERCENTAGE
loads with threshold 90, and dropping FUJI_RPC_URL makes the import
raise. -/
theorem config_required_fail_fast_witness :
    (∃ cfg, loadConfig ⟨some "http://rpc", some "0xC", some "0xKEY", some "http://ipfs",
        some "abi.json", none, some "gkey"⟩ = .ok cfg
      ∧ cfg.minimum_coverage_percentage = 90)
    ∧ configImportRaises ⟨none, some "0xC", some "0xKEY", some "http://ipfs",
        some "abi.json", none, some "gkey"⟩ = true := by
  constructor
  · exact (config_required_fail_fast ⟨some "http://rpc", some "0xC", some "0xKEY",
      some "http://ipfs", some "abi.json", none, some "gkey"⟩).2
      rfl rfl rfl rfl rfl rfl rfl
  · exact (config_required_fail_fast ⟨none, some "0xC", some "0xKEY",
      some "http://ipfs", some "abi.json", none, some "gkey"⟩).1 (Or.inl rfl)

/-- C5 witness: a successful download of "Qm123" into a fresh scratch
directory followed by a checker crash leaves the disk exactly as
before — the scratch directory is gone. -/
theorem scratch_removed_witness :
    (jobPipeline "http://localhost:5001" "Qm123"
      ⟨⟨.ok "payload", "/tmp/ipfs_work_b"⟩, .crash⟩ ["/tmp/other"]).2 = ["/tmp/other"]
    ∧ "/tmp/ipfs_work_b" ∉ (jobPipeline "http://localhost:5001" "Qm123"
        ⟨⟨.ok "payload", "/tmp/ipfs_work_b"⟩, .crash⟩ ["/tmp/other"]).2 :=
  scratch_removed_on_all_paths "http://localhost:5001" "Qm123"
    ⟨⟨.ok "payload", "/tmp/ipfs_work_b"⟩, .crash⟩ ["/tmp/other"]
    (by decide) (by decide)

/-- C1: in every listener iteration the watermark is updated only after
the whole poll batch has been handled by the callback to completion —
an iteration that raises anywhere in poll-or-handle leaves
`last_block_number` unchanged, so the next poll that reaches filter
creation re-scans from the old watermark; conversely a changed watermark
certifies that the iteration completed with the callback of every event
invoked to completion. -/
theorem watermark_only_after_full_batch (s : ListenerState) (env : PollEnv) :
    ((listenStep s env).ok = false →
      (listenStep s env).state.last_block_number = s.last_block_number
      ∧ ∀ env2 : PollEnv, env2.initOk = true →
          (listenStep (listenStep s env).state env2).fromBlock
            = some (s.last_block_number + 1))
    ∧ ((listenStep s env).state.last_block_number ≠ s.last_block_number →
      (listenStep s env).ok = true
      ∧ (listenStep s env).invoked = env.events
      ∧ ∀ e ∈ env.events, env.cbOk e = true) := by
  have hA : (listenStep s env).ok = false →
      (listenStep s env).state.last_block_number = s.last_block_number
      ∧ (listenStep s env).state.w3 = false := by
    intro hok
    cases hw : s.w3 <;> cases hc : s.contract <;> cases hi : env.initOk <;>
      cases hf : env.filterOk <;>
      rcases hr : (runCallbacks env.cbOk env.events).2 with _ | _ <;>
      simp [listenStep, hw, hc, hi, hf, hr] at hok ⊢
  have hB : (listenStep s env).ok = true →
      (listenStep s env).invoked = env.events
      ∧ ∀ e ∈ env.events, env.cbOk e = true := by
    intro hok
    have hbatch : (runCallbacks env.cbOk env.events).2 = true ∧
        (listenStep s env).invoked = (runCallbacks env.cbOk env.events).1 := by
      cases hw : s.w3 <;> cases hc : s.contract <;> cases hi : env.initOk <;>
        cases hf : env.filterOk <;>
        rcases hr : (runCallbacks env.cbOk env.events).2 with _ | _ <;>
        simp [listenStep, hw, hc, hi, hf, hr] at hok ⊢
    obtain ⟨hcomp1, hcomp2⟩ := runCallbacks_complete env.cbOk env.events hbatch.1
    exact ⟨hbatch.2.trans hcomp1, hcomp2⟩
  constructor
  · intro hok
    obtain ⟨hlast, hw3⟩ := hA hok
    refine ⟨hlast, fun env2 hinit => ?_⟩
    have hcond : ((!(listenStep s env).state.w3 || !(listenStep s env).state.contract)
        && !env2.initOk) = false := by
      simp [hw3, hinit]
    rw [listenStep_fromBlock (listenStep s env).state env2 hcond, hlast]
  · intro hchanged
    cases hok : (listenStep s env).ok with
    | false => exact absurd (hA hok).1 hchanged
    | true => exact ⟨rfl, hB hok⟩

/-- C1 witness: when filter creation raises, the watermark 100 is kept
and the next iteration with a working connection re-creates the filter
from block 101; when the batch completes, every event was invoked. -/
theorem watermark_only_after_full_batch_witness :
    (listenStep ⟨true, true, true, 100⟩
      ⟨true, false, [], fun _ => true, 100⟩).state.last_block_number = 100
    ∧ (listenStep (listenStep ⟨true, true, true, 100⟩
        ⟨true, false, [], fun _ => true, 100⟩).state
        ⟨true, true, [], fun _ => true, 120⟩).fromBlock = some 101
    ∧ (listenStep ⟨true, true, true, 100⟩
        ⟨true, true, [⟨7, 101⟩], fun _ => true, 150⟩).invoked = [⟨7, 101⟩] := by
  have hFail := watermark_only_after_full_batch ⟨true, true, true, 100⟩
    ⟨true, false, [], fun _ => true, 100⟩
  have hOk := watermark_only_after_full_batch ⟨true, true, true, 100⟩
    ⟨true, true, [⟨7, 101⟩], fun _ => true, 150⟩
  refine ⟨(hFail.1 rfl).1, (hFail.1 rfl).2 ⟨true, true, [], fun _ => true, 120⟩ rfl, ?_⟩
  exact (hOk.2 (by decide)).2.1

/-- C2: for a poll batch the event filter returns (connection available
or re-initializable, filter creation succeeding), the listener invokes
the per-event callback exactly once per event, in exactly the order the
filter returned them, awaiting each to completion before the next (the
event loop of the embedding is sequential by construction), and the iteration
completes. -/
theorem callback_once_per_event_in_order (s : ListenerState) (env : PollEnv)
    (hreach : (!s.w3 || !s.contract) = true → env.initOk = true)
    (hfilter : env.filterOk = true)
    (hcb : ∀ e ∈ env.events, env.cbOk e = true) :
    (listenStep s env).invoked = env.events ∧ (listenStep s env).ok = true := by
  have hrun := runCallbacks_all_true env.cbOk env.events hcb
  by_cases hni : (!s.w3 || !s.contract) = true
  · have hi := hreach hni
    simp [listenStep, hni, hi, hfilter, hrun]
  · have hni' : (!s.w3 || !s.contract) = false := by
      cases h : (!s.w3 || !s.contract)
      · rfl
      · exact absurd h hni
    simp [listenStep, hni', hfilter, hrun]

/-- C2 witness: a two-event batch on an initialized listener is invoked
exactly once per event, in filter order, and the iteration completes. -/
theorem callback_once_per_event_witness :
    (listenStep ⟨true, true, true, 100⟩
      ⟨true, true, [⟨7, 101⟩, ⟨8, 101⟩], fun _ => true, 105⟩).invoked
        = [⟨7, 101⟩, ⟨8, 101⟩]
    ∧ (listenStep ⟨true, true, true, 100⟩
        ⟨true, true, [⟨7, 101⟩, ⟨8, 101⟩], fun _ => true, 105⟩).ok = true :=
  callback_once_per_event_in_order ⟨true, true, true, 100⟩
    ⟨true, true, [⟨7, 101⟩, ⟨8, 101⟩], fun _ => true, 105⟩
    (fun _ => rfl) rfl (fun _ _ => rfl)

/-- C7 (code bug): on an exception in the poll-or-handle body the
listener does sleep the 10-unit cooldown (strictly longer than the
5-unit poll interval), keeps looping, and re-attempts `init_contract` on
the next iteration because `w3` and `contract` are reset to `None` — but
contrary to the claim it does NOT reset the module-global
`ai_agent_account`: `listen_for_event` declares only
`global w3, contract`, so the `ai_agent_account = None` in its `except`
clause binds a function-local name and the cached agent account survives
with its old value. -/
theorem listener_exception_preserves_agent_account :
    (listenStep ⟨true, true, true, 100⟩
      ⟨true, false, [], fun _ => true, 100⟩).state.w3 = false
    ∧ (listenStep ⟨true, true, true, 100⟩
        ⟨true, false, [], fun _ => true, 100⟩).state.contract = false
    ∧ (listenStep ⟨true, true, true, 100⟩
        ⟨true, false, [], fun _ => true, 100⟩).state.ai_agent_account = true
    ∧ (listenStep ⟨true, true, true, 100⟩
        ⟨true, false, [], fun _ => true, 100⟩).ok = false
    ∧ (listenStep ⟨true, true, true, 100⟩
        ⟨true, false, [], fun _ => true, 100⟩).sleep = COOLDOWN
    ∧ COOLDOWN = 10 ∧ POLL_INTERVAL = 5 ∧ POLL_INTERVAL < COOLDOWN
    ∧ (listenStep (listenStep ⟨true, true, true, 100⟩
        ⟨true, false, [], fun _ => true, 100⟩).state
        ⟨true, true, [], fun _ => true, 120⟩).initAttempted = true :=
  ⟨rfl, rfl, rfl, rfl, rfl, rfl, rfl, by decide, rfl⟩

end VerifiApp
